import Mathlib

/-!
Shallow embedding of the TAF forecast evaluation engine of the
`deckenhoehe` repository: the cloud/ceiling extractor, the four-tier and
two-tier flight-category classifiers, the per-period evaluator, the
worst-case combiner, and the forecast engines for category and weather
resolution, together with theorems about them.

Conventions of the embedding:
* JavaScript `null`/`undefined` on a field is `Option.none`.
* Unix-second timestamps and ceiling heights are `ℤ`; visibilities are `ℚ`.
* A JS comparison `x < y` where one side is `undefined` evaluates to
  `false`; the `js…` helpers below reproduce that.
* A visibility value is a JS number, a nonempty numeric string (optionally
  carrying a `+`), a nonempty string that does not parse (so `parseFloat`
  yields `NaN`; every numeric comparison on `NaN` is `false`, which is
  observationally the same as the absent-constraint branch in both
  classifiers), or the empty string.
-/

/-- The four flight categories (the two-tier scheme uses a separate type). -/
inductive Cat where
  | VFR
  | MVFR
  | IFR
  | LIFR
deriving DecidableEq, Repr, Fintype

/-- The severity table `{ VFR: 0, MVFR: 1, IFR: 2, LIFR: 3 }`. -/
def Cat.sev : Cat → ℕ
  | .VFR => 0
  | .MVFR => 1
  | .IFR => 2
  | .LIFR => 3

/-- Severity of a possibly-null category; `null` carries severity 0. -/
def sevO : Option Cat → ℕ
  | none => 0
  | some c => c.sev

/-- Cloud cover codes occurring in the data model. -/
inductive Cover where
  | SKC
  | CLR
  | FEW
  | SCT
  | BKN
  | OVC
  | OVX
deriving DecidableEq, Repr, Fintype

/-- One cloud layer: `{ cover, base }`, the base possibly absent. -/
structure CloudLayer where
  cover : Cover
  base : Option ℤ
deriving DecidableEq, Repr

/-- A raw visibility field value (JS `string|number`). -/
inductive Visib where
  | vnum (v : ℚ)
  | vstr (v : ℚ) (plus : Bool)
  | vbadstr
  | vempty
deriving DecidableEq, Repr

/-- Forecast change-group kinds. -/
inductive FcstChange where
  | BECMG
  | TEMPO
  | PROB
deriving DecidableEq, Repr, Fintype

/-- One forecast period of a TAF document (base period or change group). -/
structure Period where
  timeFrom : Option ℤ
  timeTo : Option ℤ
  timeBec : Option ℤ
  fcstChange : Option FcstChange
  clouds : Option (List CloudLayer)
  visib : Option Visib
  wdir : Option ℤ
  wspd : Option ℤ
  wgst : Option ℤ
deriving DecidableEq, Repr

/-- A TAF document (fields the engine reads). -/
structure Taf where
  validTimeFrom : Option ℤ
  validTimeTo : Option ℤ
  fcsts : List Period
deriving DecidableEq, Repr

/-- JS `t < v` where `v` may be `undefined` (then the comparison is false). -/
def jsLt (t : ℤ) (v : Option ℤ) : Bool :=
  match v with
  | some x => decide (t < x)
  | none => false

/-- JS `t >= v` where `v` may be `undefined` (then the comparison is false). -/
def jsGe (t : ℤ) (v : Option ℤ) : Bool :=
  match v with
  | some x => decide (x ≤ t)
  | none => false

/-- JS `v <= t` where `v` may be `undefined` (then the comparison is false). -/
def jsLeFrom (v : Option ℤ) (t : ℤ) : Bool :=
  match v with
  | some x => decide (x ≤ t)
  | none => false

/-- JS `t < v` on a period bound, `false` when the bound is absent. -/
def jsLtTo (t : ℤ) (v : Option ℤ) : Bool :=
  match v with
  | some x => decide (t < x)
  | none => false

/-- The window test `period.timeFrom <= t && t < period.timeTo`. -/
def periodCovers (p : Period) (t : ℤ) : Bool :=
  jsLeFrom p.timeFrom t && jsLtTo t p.timeTo

/-- The visibility-parsing prelude shared by all three classifier copies:
`null`/`''` give no value, a string with `+` parses with 0.1 added,
any other string or a number parses as itself; an unparseable string
yields `NaN`, whose comparisons all fail exactly like the no-value case. -/
def parseVis : Option Visib → Option ℚ
  | none => none
  | some .vempty => none
  | some .vbadstr => none
  | some (.vnum v) => some v
  | some (.vstr v plus) => some (if plus then v + 0.1 else v)

/-- The `vis == null || vis === ''` test of `getTafPeriodCategory`. -/
def visMissing : Option Visib → Bool
  | none => true
  | some .vempty => true
  | _ => false

/-- Ceiling-axis category of the four-tier classifier. -/
def ceilCatOf : Option ℤ → Cat
  | none => .VFR
  | some c =>
    if c < 500 then .LIFR
    else if c < 1000 then .IFR
    else if c ≤ 3000 then .MVFR
    else .VFR

/-- Visibility-axis category of the four-tier classifier. -/
def visCatOf : Option ℚ → Cat
  | none => .VFR
  | some v =>
    if v < 1 then .LIFR
    else if v < 3 then .IFR
    else if v ≤ 5 then .MVFR
    else .VFR

/-- `computeFlightCategory(ceilingFt, visibSM)` — the four-tier classifier
(identical copies in the server file and the four-tier client file):
the worse of the ceiling-axis and visibility-axis categories. -/
def computeFlightCategory (ceilingFt : Option ℤ) (visibSM : Option Visib) : Cat :=
  let vis : Option ℚ := parseVis visibSM
  let ceilCat : Cat := ceilCatOf ceilingFt
  let visCat : Cat := visCatOf vis
  if visCat.sev ≤ ceilCat.sev then ceilCat else visCat

/-- Scan of the cloud-layer list: base of the first BKN/OVC/OVX layer. -/
def ceilingScan : List CloudLayer → Option ℤ
  | [] => none
  | c :: rest =>
    if c.cover = .BKN ∨ c.cover = .OVC ∨ c.cover = .OVX then c.base
    else ceilingScan rest

/-- `getCeilingFromClouds(clouds)`: `null` on an absent list, else the scan. -/
def getCeilingFromClouds : Option (List CloudLayer) → Option ℤ
  | none => none
  | some clouds => ceilingScan clouds

/-- `getTafPeriodCategory(period)`: `null` when both the ceiling and the
visibility are missing, otherwise the classifier's result. -/
def getTafPeriodCategory (p : Period) : Option Cat :=
  let ceiling := getCeilingFromClouds p.clouds
  let vis := p.visib
  if ceiling.isNone && visMissing vis then none
  else some (computeFlightCategory ceiling vis)

/-- `worseCat(a, b)`: `null` is the identity, otherwise the category of
maximal severity (ties return the first argument). -/
def worseCat : Option Cat → Option Cat → Option Cat
  | none, b => b
  | some a, none => some a
  | some a, some b => if Cat.sev b ≤ Cat.sev a then some a else some b

/-- One iteration of the BECMG loop of `getForecastCategoryFromTaf`:
skip non-BECMG groups, combine groups whose `timeFrom <= targetTime`. -/
def becmgStep (t : ℤ) (acc : Option Cat) (cg : Period) : Option Cat :=
  if cg.fcstChange ≠ some FcstChange.BECMG then acc
  else if jsLeFrom cg.timeFrom t then worseCat acc (getTafPeriodCategory cg)
  else acc

/-- One iteration of the TEMPO/PROB loop of `getForecastCategoryFromTaf`:
skip BECMG groups, combine groups whose window covers the target. -/
def tempoStep (t : ℤ) (acc : Option Cat) (cg : Period) : Option Cat :=
  if cg.fcstChange = some FcstChange.BECMG then acc
  else if jsLeFrom cg.timeFrom t && jsLtTo t cg.timeTo then
    worseCat acc (getTafPeriodCategory cg)
  else acc

/-- Body of `getForecastCategoryFromTaf` after its guards: partition into
base periods and change groups, take the first covering base period's
category, fold in qualifying BECMG groups, then covering TEMPO/PROB groups. -/
def tafCategoryCore (taf : Taf) (t : ℤ) : Option Cat :=
  let basePeriods := taf.fcsts.filter (fun f => f.fcstChange.isNone)
  let changeGroups := taf.fcsts.filter (fun f => !f.fcstChange.isNone)
  let baseCat : Option Cat :=
    match basePeriods.find? (fun p => periodCovers p t) with
    | some p => getTafPeriodCategory p
    | none => none
  let afterBecmg := changeGroups.foldl (becmgStep t) baseCat
  changeGroups.foldl (tempoStep t) afterBecmg

/-- `getForecastCategoryFromTaf(taf, targetTime)` — the server-side engine:
guards for an empty period list and for the validity window, then the core. -/
def getForecastCategoryFromTaf (taf : Taf) (t : ℤ) : Option Cat :=
  if taf.fcsts.isEmpty then none
  else if jsLt t taf.validTimeFrom || jsGe t taf.validTimeTo then none
  else tafCategoryCore taf t

/-- JS `a || b` on numeric fields: `a` unless it is `null` or `0`. -/
def jsOrNum (a b : Option ℤ) : Option ℤ :=
  match a with
  | some x => if x = 0 then b else some x
  | none => b

namespace ClientFour

/-! Verbatim re-translation of the four-tier client copy (the map client's
`computeFlightCategory`, `getCeilingFromClouds`, `getTafPeriodCategory`,
`CATEGORY_SEVERITY`, `worseCat`, `getForecastCategory`). Its
`getForecastCategory(icao, t)` looks up `tafData[icao]`; that lookup is
modelled by passing the resolved `Option Taf` directly. -/

def CATEGORY_SEVERITY : Cat → ℕ
  | .VFR => 0
  | .MVFR => 1
  | .IFR => 2
  | .LIFR => 3

def computeFlightCategory (ceilingFt : Option ℤ) (visibSM : Option Visib) : Cat :=
  let vis : Option ℚ := parseVis visibSM
  let ceilCat : Cat :=
    match ceilingFt with
    | none => .VFR
    | some c =>
      if c < 500 then .LIFR
      else if c < 1000 then .IFR
      else if c ≤ 3000 then .MVFR
      else .VFR
  let visCat : Cat :=
    match vis with
    | none => .VFR
    | some v =>
      if v < 1 then .LIFR
      else if v < 3 then .IFR
      else if v ≤ 5 then .MVFR
      else .VFR
  if CATEGORY_SEVERITY visCat ≤ CATEGORY_SEVERITY ceilCat then ceilCat else visCat

def getCeilingFromCloudsScan : List CloudLayer → Option ℤ
  | [] => none
  | c :: rest =>
    if c.cover = .BKN ∨ c.cover = .OVC ∨ c.cover = .OVX then c.base
    else getCeilingFromCloudsScan rest

def getCeilingFromClouds : Option (List CloudLayer) → Option ℤ
  | none => none
  | some clouds => getCeilingFromCloudsScan clouds

def getTafPeriodCategory (p : Period) : Option Cat :=
  let ceiling := getCeilingFromClouds p.clouds
  let vis := p.visib
  if ceiling.isNone && visMissing vis then none
  else some (computeFlightCategory ceiling vis)

def worseCat : Option Cat → Option Cat → Option Cat
  | none, b => b
  | some a, none => some a
  | some a, some b =>
    if CATEGORY_SEVERITY b ≤ CATEGORY_SEVERITY a then some a else some b

/-- The BECMG loop body; `completionTime = cg.timeBec || cg.timeTo` is
computed in the source but never used. -/
def becmgStep (t : ℤ) (acc : Option Cat) (cg : Period) : Option Cat :=
  if cg.fcstChange ≠ some FcstChange.BECMG then acc
  else
    let _completionTime := jsOrNum cg.timeBec cg.timeTo
    if jsLeFrom cg.timeFrom t then worseCat acc (getTafPeriodCategory cg)
    else acc

def tempoStep (t : ℤ) (acc : Option Cat) (cg : Period) : Option Cat :=
  if cg.fcstChange = some FcstChange.BECMG then acc
  else if jsLeFrom cg.timeFrom t && jsLtTo t cg.timeTo then
    worseCat acc (getTafPeriodCategory cg)
  else acc

def getForecastCategory (tafLookup : Option Taf) (targetTime : ℤ) : Option Cat :=
  match tafLookup with
  | none => none
  | some taf =>
    if taf.fcsts.isEmpty then none
    else if jsLt targetTime taf.validTimeFrom || jsGe targetTime taf.validTimeTo then none
    else
      let basePeriods := taf.fcsts.filter (fun f => f.fcstChange.isNone)
      let changeGroups := taf.fcsts.filter (fun f => !f.fcstChange.isNone)
      let baseCat : Option Cat :=
        match basePeriods.find? (fun p => periodCovers p targetTime) with
        | some p => getTafPeriodCategory p
        | none => none
      let afterBecmg := changeGroups.foldl (becmgStep targetTime) baseCat
      changeGroups.foldl (tempoStep targetTime) afterBecmg

end ClientFour

namespace ClientTwo

/-! The two-tier (ICAO/Austrian VFR-vs-IFR) classifier variant of the
client: same visibility parsing, thresholds ceiling ≤ 1500 ft or
visibility ≤ 5 km (the 5 km bound expressed in statute miles). -/

inductive Cat2 where
  | VFR
  | IFR
deriving DecidableEq, Repr, Fintype

def VFR_CEIL : ℤ := 1500

def VFR_VIS_SM : ℚ := 5 / 1.60934

/-- JS `x != null && x <= bound` on an optional integer. -/
def jsLeNum (x : Option ℤ) (bound : ℤ) : Bool :=
  match x with
  | some v => decide (v ≤ bound)
  | none => false

/-- JS `x != null && x <= bound` on an optional rational. -/
def jsLeRat (x : Option ℚ) (bound : ℚ) : Bool :=
  match x with
  | some v => decide (v ≤ bound)
  | none => false

def computeFlightCategory (ceilingFt : Option ℤ) (visibSM : Option Visib) : Cat2 :=
  let vis : Option ℚ := parseVis visibSM
  if jsLeNum ceilingFt VFR_CEIL then .IFR
  else if jsLeRat vis VFR_VIS_SM then .IFR
  else .VFR

end ClientTwo

/-! ### Weather-parameter resolution (`getForecastWeatherFromTaf`) -/

/-- The result record `{ wspd, wgst, wdir, ceiling }`, fields nullable. -/
structure Weather where
  wspd : Option ℤ
  wgst : Option ℤ
  wdir : Option ℤ
  ceiling : Option ℤ
deriving DecidableEq, Repr

/-- The all-null initial result of `getForecastWeatherFromTaf`. -/
def initWeather : Weather :=
  { wspd := none, wgst := none, wdir := none, ceiling := none }

/-- The first loop: the first base period covering the target supplies the
initial `wspd`, `wgst`, `wdir` and the ceiling from its own clouds. -/
def baseWeather (t : ℤ) (basePeriods : List Period) : Weather :=
  match basePeriods.find? (fun p => periodCovers p t) with
  | some p =>
    { wspd := p.wspd, wgst := p.wgst, wdir := p.wdir,
      ceiling := getCeilingFromClouds p.clouds }
  | none => initWeather

/-- One iteration of the BECMG loop: overwrite every field the group
explicitly reports, for groups whose `timeFrom <= targetTimeSec`. -/
def becmgWeatherStep (t : ℤ) (r : Weather) (cg : Period) : Weather :=
  if cg.fcstChange ≠ some FcstChange.BECMG then r
  else if jsLeFrom cg.timeFrom t then
    { wspd := if cg.wspd.isSome then cg.wspd else r.wspd,
      wgst := if cg.wgst.isSome then cg.wgst else r.wgst,
      wdir := if cg.wdir.isSome then cg.wdir else r.wdir,
      ceiling :=
        if (getCeilingFromClouds cg.clouds).isSome then getCeilingFromClouds cg.clouds
        else r.ceiling }
  else r

/-- `cg.w != null && (cur == null || cg.w > cur)` — take-the-higher update. -/
def maxUpd (cur w : Option ℤ) : Option ℤ :=
  match w with
  | none => cur
  | some x =>
    match cur with
    | none => some x
    | some y => if y < x then some x else cur

/-- `c != null && (cur == null || c < cur)` — take-the-lower update. -/
def minUpd (cur c : Option ℤ) : Option ℤ :=
  match c with
  | none => cur
  | some x =>
    match cur with
    | none => some x
    | some y => if x < y then some x else cur

/-- One iteration of the TEMPO/PROB loop: per-field worst case (higher
wind/gust, lower ceiling); `wdir` is never touched. -/
def tempoWeatherStep (t : ℤ) (r : Weather) (cg : Period) : Weather :=
  if cg.fcstChange = some FcstChange.BECMG then r
  else if jsLeFrom cg.timeFrom t && jsLtTo t cg.timeTo then
    { wspd := maxUpd r.wspd cg.wspd,
      wgst := maxUpd r.wgst cg.wgst,
      wdir := r.wdir,
      ceiling := minUpd r.ceiling (getCeilingFromClouds cg.clouds) }
  else r

/-- `getForecastWeatherFromTaf(taf, targetTimeSec)`: same guards as the
category engine, then the base pass, the BECMG overwrite pass, and the
TEMPO/PROB worst-case pass. -/
def getForecastWeatherFromTaf (taf : Taf) (t : ℤ) : Option Weather :=
  if taf.fcsts.isEmpty then none
  else if jsLt t taf.validTimeFrom || jsGe t taf.validTimeTo then none
  else
    let basePeriods := taf.fcsts.filter (fun f => f.fcstChange.isNone)
    let changeGroups := taf.fcsts.filter (fun f => !f.fcstChange.isNone)
    let r0 := baseWeather t basePeriods
    let r1 := changeGroups.foldl (becmgWeatherStep t) r0
    some (changeGroups.foldl (tempoWeatherStep t) r1)


/-! ### Shared lemmas -/

/-- Combined-category dominance order: not-lower severity, and a concrete
category never degrades back to `null`. -/
def catLe (a b : Option Cat) : Prop :=
  sevO a ≤ sevO b ∧ (a.isSome → b.isSome)

instance (a b : Option Cat) : Decidable (catLe a b) := by
  unfold catLe
  infer_instance

theorem catLe_refl : ∀ a : Option Cat, catLe a a := by decide

theorem catLe_trans : ∀ a b c : Option Cat, catLe a b → catLe b c → catLe a c := by decide

theorem worseCat_catLe_left : ∀ a b : Option Cat, catLe a (worseCat a b) := by decide

theorem worseCat_catLe_right : ∀ a b : Option Cat, catLe b (worseCat a b) := by decide

theorem becmgStep_catLe (t : ℤ) (acc : Option Cat) (cg : Period) :
    catLe acc (becmgStep t acc cg) := by
  unfold becmgStep
  split
  · exact catLe_refl acc
  · split
    · exact worseCat_catLe_left acc _
    · exact catLe_refl acc

theorem tempoStep_catLe (t : ℤ) (acc : Option Cat) (cg : Period) :
    catLe acc (tempoStep t acc cg) := by
  unfold tempoStep
  split
  · exact catLe_refl acc
  · split
    · exact worseCat_catLe_left acc _
    · exact catLe_refl acc

theorem foldl_catLe (step : Option Cat → Period → Option Cat)
    (hstep : ∀ acc cg, catLe acc (step acc cg)) :
    ∀ (l : List Period) (init : Option Cat), catLe init (l.foldl step init) := by
  intro l
  induction l with
  | nil => intro init; exact catLe_refl init
  | cons cg rest ih =>
    intro init
    rw [List.foldl_cons]
    exact catLe_trans _ _ _ (hstep init cg) (ih (step init cg))

theorem foldl_catLe_mem (step : Option Cat → Period → Option Cat)
    (hstep : ∀ acc cg, catLe acc (step acc cg)) (g : Period) (x : Option Cat)
    (hx : ∀ acc, catLe x (step acc g)) :
    ∀ (l : List Period) (init : Option Cat), g ∈ l → catLe x (l.foldl step init) := by
  intro l
  induction l with
  | nil => intro init h; exact absurd h (List.not_mem_nil g)
  | cons cg rest ih =>
    intro init h
    rw [List.foldl_cons]
    rcases List.mem_cons.mp h with h | h
    · exact catLe_trans _ _ _ (h ▸ hx init) (foldl_catLe step hstep rest (step init cg))
    · exact ih (step init cg) h

/-! ### Claim theorems -/

/-- C6: over `{null, VFR, MVFR, IFR, LIFR}` the worst-case combiner
`worseCat` has `null` as a two-sided identity, is commutative and
associative, and on non-null categories returns one of its arguments,
namely one of maximal severity. -/
theorem worseCat_algebra :
    (∀ a : Option Cat, worseCat none a = a ∧ worseCat a none = a) ∧
    (∀ a b : Option Cat, worseCat a b = worseCat b a) ∧
    (∀ a b c : Option Cat, worseCat (worseCat a b) c = worseCat a (worseCat b c)) ∧
    (∀ x y : Cat,
      (worseCat (some x) (some y) = some x ∨ worseCat (some x) (some y) = some y) ∧
      sevO (worseCat (some x) (some y)) = max x.sev y.sev) := by
  decide

/-- C7: `getCeilingFromClouds` returns the `base` of the first layer in
list order whose cover is BKN, OVC or OVX; it returns `null` on an absent
list, an empty list, or a list with no such layer; FEW and SCT layers
never define a ceiling, and the two concrete examples of the spec hold. -/
theorem ceiling_extractor_spec :
    (∀ cs : List CloudLayer,
      getCeilingFromClouds (some cs) =
        (cs.find? (fun c =>
          decide (c.cover = Cover.BKN ∨ c.cover = Cover.OVC ∨ c.cover = Cover.OVX))).bind
          CloudLayer.base) ∧
    getCeilingFromClouds none = none ∧
    (∀ (c : CloudLayer) (cs : List CloudLayer), c.cover = Cover.FEW ∨ c.cover = Cover.SCT →
      getCeilingFromClouds (some (c :: cs)) = getCeilingFromClouds (some cs)) ∧
    getCeilingFromClouds (some [⟨Cover.SCT, some 2000⟩, ⟨Cover.BKN, some 3500⟩]) = some 3500 ∧
    getCeilingFromClouds (some [⟨Cover.FEW, some 1000⟩]) = none := by
  refine ⟨?_, rfl, ?_, by decide, by decide⟩
  · intro cs
    induction cs with
    | nil => rfl
    | cons c rest ih =>
      by_cases h : c.cover = Cover.BKN ∨ c.cover = Cover.OVC ∨ c.cover = Cover.OVX
      · simp [getCeilingFromClouds, ceilingScan, List.find?_cons, h]
      · simpa [getCeilingFromClouds, ceilingScan, List.find?_cons, h] using ih
  · intro c cs h
    have hnot : ¬(c.cover = Cover.BKN ∨ c.cover = Cover.OVC ∨ c.cover = Cover.OVX) := by
      rcases h with h | h <;> simp [h]
    simp [getCeilingFromClouds, ceilingScan, hnot]

/-- C7 witness: a FEW layer in front of an OVC layer does not change the
extracted ceiling. -/
theorem ceiling_extractor_spec_witness :
    getCeilingFromClouds (some [⟨Cover.FEW, some 1200⟩, ⟨Cover.OVC, some 900⟩]) =
      getCeilingFromClouds (some [⟨Cover.OVC, some 900⟩]) :=
  ceiling_extractor_spec.2.2.1 ⟨Cover.FEW, some 1200⟩ [⟨Cover.OVC, some 900⟩] (Or.inl rfl)

/-- A concrete base period used by several witnesses below. -/
def wBase : Period :=
  { timeFrom := some 0, timeTo := some 3600, timeBec := none, fcstChange := none,
    clouds := some [⟨Cover.BKN, some 5000⟩], visib := none,
    wdir := some 270, wspd := some 10, wgst := none }

/-- A concrete BECMG change group used by several witnesses below. -/
def wBecmg : Period :=
  { timeFrom := some 600, timeTo := some 1200, timeBec := some 1200,
    fcstChange := some FcstChange.BECMG,
    clouds := some [⟨Cover.OVC, some 800⟩], visib := none,
    wdir := some 180, wspd := some 20, wgst := none }

/-- Inside the validity window, on a nonempty period list, neither guard
of `getForecastCategoryFromTaf` fires and the core is evaluated. -/
theorem engine_eval_inside (taf : Taf) (t a b : ℤ)
    (hva : taf.validTimeFrom = some a) (hvb : taf.validTimeTo = some b)
    (h1 : a ≤ t) (h2 : t < b) (hne : taf.fcsts ≠ []) :
    getForecastCategoryFromTaf taf t = tafCategoryCore taf t := by
  unfold getForecastCategoryFromTaf
  rw [hva, hvb]
  have he : taf.fcsts.isEmpty = false := by
    simpa [List.isEmpty_iff] using hne
  simp [he, jsLt, jsGe, not_lt.mpr h1, not_le.mpr h2]

/-- C4: whenever both validity bounds are numeric, a target time below
`validTimeFrom` or at/above `validTimeTo` yields `null`; inside the
half-open window (and with a nonempty period list) the guard does not fire
and the engine evaluates its core. -/
theorem validity_guard (taf : Taf) (t a b : ℤ)
    (hva : taf.validTimeFrom = some a) (hvb : taf.validTimeTo = some b) :
    ((t < a ∨ b ≤ t) → getForecastCategoryFromTaf taf t = none) ∧
    (a ≤ t → t < b → taf.fcsts ≠ [] →
      getForecastCategoryFromTaf taf t = tafCategoryCore taf t) := by
  constructor
  · intro h
    unfold getForecastCategoryFromTaf
    rw [hva, hvb]
    by_cases he : taf.fcsts.isEmpty
    · simp [he]
    · simp [he, jsLt, jsGe]
      omega
  · intro h1 h2 hne
    exact engine_eval_inside taf t a b hva hvb h1 h2 hne

/-- C4 witness: a document valid on `[0, 3600)` yields `null` at `3600`
and evaluates its core at `0`. -/
theorem validity_guard_witness :
    getForecastCategoryFromTaf ⟨some 0, some 3600, [wBase]⟩ 3600 = none ∧
    getForecastCategoryFromTaf ⟨some 0, some 3600, [wBase]⟩ 0 =
      tafCategoryCore ⟨some 0, some 3600, [wBase]⟩ 0 := by
  constructor
  · exact (validity_guard ⟨some 0, some 3600, [wBase]⟩ 3600 0 3600 rfl rfl).1
      (Or.inr (by norm_num))
  · exact (validity_guard ⟨some 0, some 3600, [wBase]⟩ 0 0 3600 rfl rfl).2
      (by norm_num) (by norm_num) (by simp)

/-- C10: when both validity bounds are absent the guard comparisons are
both false, so the engine evaluates its core for every target time; in
particular, on a document of base periods only, the first period covering
the target yields its own category. -/
theorem no_validity_window (taf : Taf) (t : ℤ)
    (hva : taf.validTimeFrom = none) (hvb : taf.validTimeTo = none) :
    (taf.fcsts ≠ [] → getForecastCategoryFromTaf taf t = tafCategoryCore taf t) ∧
    (∀ p : Period, (∀ f ∈ taf.fcsts, f.fcstChange = none) →
      taf.fcsts.find? (fun q => periodCovers q t) = some p →
      getForecastCategoryFromTaf taf t = getTafPeriodCategory p) := by
  have hguard : ∀ hne : taf.fcsts ≠ [],
      getForecastCategoryFromTaf taf t = tafCategoryCore taf t := by
    intro hne
    unfold getForecastCategoryFromTaf
    rw [hva, hvb]
    have he : taf.fcsts.isEmpty = false := by
      simpa [List.isEmpty_iff] using hne
    simp [he, jsLt, jsGe]
  refine ⟨hguard, ?_⟩
  intro p hbase hfind
  have hmem : p ∈ taf.fcsts := List.mem_of_find?_eq_some hfind
  have hne : taf.fcsts ≠ [] := List.ne_nil_of_mem hmem
  rw [hguard hne]
  unfold tafCategoryCore
  have hfb : taf.fcsts.filter (fun f => f.fcstChange.isNone) = taf.fcsts := by
    rw [List.filter_eq_self]
    intro f hf
    simp [hbase f hf]
  have hfc : taf.fcsts.filter (fun f => !f.fcstChange.isNone) = [] := by
    rw [List.filter_eq_nil_iff]
    intro f hf
    simp [hbase f hf]
  simp only [hfb, hfc]
  simp [hfind]

/-- C10 witness: a document without validity bounds, holding one base
period covering time `100`, yields that period's category at `100`. -/
theorem no_validity_window_witness :
    getForecastCategoryFromTaf ⟨none, none, [wBase]⟩ 100 = getTafPeriodCategory wBase :=
  (no_validity_window ⟨none, none, [wBase]⟩ 100 rfl rfl).2 wBase
    (by intro f hf; simp at hf; rw [hf]; rfl) (by decide)

/-- C2: for a TAF with numeric validity bounds, any BECMG group `g` whose
`timeFrom` is at or before the in-window target time contributes
permanently — the engine's result is at least as severe as `g`'s own
period category, and never degrades a concrete category of `g` back to
`null` — irrespective of `g.timeTo` and `g.timeBec`. -/
theorem becmg_permanence (taf : Taf) (t a b tf : ℤ) (g : Period)
    (hva : taf.validTimeFrom = some a) (hvb : taf.validTimeTo = some b)
    (hmem : g ∈ taf.fcsts) (hbec : g.fcstChange = some FcstChange.BECMG)
    (htf : g.timeFrom = some tf) (hle : tf ≤ t) (hat : a ≤ t) (hbt : t < b) :
    sevO (getTafPeriodCategory g) ≤ sevO (getForecastCategoryFromTaf taf t) ∧
    ((getTafPeriodCategory g).isSome → (getForecastCategoryFromTaf taf t).isSome) := by
  have hne : taf.fcsts ≠ [] := List.ne_nil_of_mem hmem
  rw [engine_eval_inside taf t a b hva hvb hat hbt hne]
  unfold tafCategoryCore
  have hmemCG : g ∈ taf.fcsts.filter (fun f => !f.fcstChange.isNone) := by
    rw [List.mem_filter]
    exact ⟨hmem, by simp [hbec]⟩
  have hqual : jsLeFrom g.timeFrom t = true := by
    simp [jsLeFrom, htf, hle]
  have hx : ∀ acc : Option Cat, catLe (getTafPeriodCategory g) (becmgStep t acc g) := by
    intro acc
    unfold becmgStep
    rw [if_neg (by simp [hbec]), if_pos hqual]
    exact worseCat_catLe_right acc _
  have hbecmg :
      catLe (getTafPeriodCategory g)
        ((taf.fcsts.filter (fun f => !f.fcstChange.isNone)).foldl (becmgStep t)
          (match (taf.fcsts.filter (fun f => f.fcstChange.isNone)).find?
              (fun p => periodCovers p t) with
            | some p => getTafPeriodCategory p
            | none => none)) :=
    foldl_catLe_mem (becmgStep t) (becmgStep_catLe t) g (getTafPeriodCategory g) hx
      _ _ hmemCG
  have hfinal := catLe_trans _ _ _ hbecmg
    (foldl_catLe (tempoStep t) (tempoStep_catLe t)
      (taf.fcsts.filter (fun f => !f.fcstChange.isNone)) _)
  exact hfinal

/-- C2 witness: in a document with one VFR base period and one IFR BECMG
group starting at 600, the category at time 3000 (past the BECMG's
`timeTo` and `timeBec`) is still at least as severe as the BECMG's own
period category. -/
theorem becmg_permanence_witness :
    sevO (getTafPeriodCategory wBecmg) ≤
      sevO (getForecastCategoryFromTaf ⟨some 0, some 3600, [wBase, wBecmg]⟩ 3000) ∧
    ((getTafPeriodCategory wBecmg).isSome →
      (getForecastCategoryFromTaf ⟨some 0, some 3600, [wBase, wBecmg]⟩ 3000).isSome) :=
  becmg_permanence ⟨some 0, some 3600, [wBase, wBecmg]⟩ 3000 0 3600 600 wBecmg
    rfl rfl (by decide) (by decide) (by decide) (by norm_num) (by norm_num) (by norm_num)

theorem clientFour_severity_eq : ClientFour.CATEGORY_SEVERITY = Cat.sev := by
  funext x
  cases x <;> rfl

theorem clientFour_compute_eq : ClientFour.computeFlightCategory = computeFlightCategory := by
  funext c v
  unfold ClientFour.computeFlightCategory computeFlightCategory ceilCatOf visCatOf
  rw [clientFour_severity_eq]

theorem clientFour_scan_eq : ClientFour.getCeilingFromCloudsScan = ceilingScan := by
  funext l
  induction l with
  | nil => rfl
  | cons c rest ih =>
    unfold ClientFour.getCeilingFromCloudsScan ceilingScan
    split_ifs
    · rfl
    · exact ih

theorem clientFour_ceiling_eq : ClientFour.getCeilingFromClouds = getCeilingFromClouds := by
  funext o
  rcases o with _ | l
  · rfl
  · exact congrFun clientFour_scan_eq l

theorem clientFour_period_eq : ClientFour.getTafPeriodCategory = getTafPeriodCategory := by
  funext p
  unfold ClientFour.getTafPeriodCategory getTafPeriodCategory
  rw [clientFour_ceiling_eq, clientFour_compute_eq]

theorem clientFour_worseCat_eq : ClientFour.worseCat = worseCat := by
  funext a b
  rcases a with _ | a
  · rfl
  · rcases b with _ | b
    · rfl
    · unfold ClientFour.worseCat worseCat
      rw [clientFour_severity_eq]

theorem clientFour_becmgStep_eq (t : ℤ) : ClientFour.becmgStep t = becmgStep t := by
  funext acc cg
  unfold ClientFour.becmgStep becmgStep
  rw [clientFour_worseCat_eq, clientFour_period_eq]

theorem clientFour_tempoStep_eq (t : ℤ) : ClientFour.tempoStep t = tempoStep t := by
  funext acc cg
  unfold ClientFour.tempoStep tempoStep
  rw [clientFour_worseCat_eq, clientFour_period_eq]

/-- C3: the server-side engine and the four-tier client engine agree on
every TAF document and every target time (when the client's airport
lookup resolves to that document). -/
theorem live_backfill_consistent (taf : Taf) (t : ℤ) :
    ClientFour.getForecastCategory (some taf) t = getForecastCategoryFromTaf taf t := by
  unfold ClientFour.getForecastCategory getForecastCategoryFromTaf tafCategoryCore
  rw [clientFour_becmgStep_eq, clientFour_tempoStep_eq, clientFour_period_eq]

theorem sev_computeFlightCategory (c : Option ℤ) (v : Option Visib) :
    (computeFlightCategory c v).sev = max (ceilCatOf c).sev (visCatOf (parseVis v)).sev := by
  unfold computeFlightCategory
  dsimp only
  split
  · rename_i h
    exact (Nat.max_eq_left h).symm
  · rename_i h
    exact (Nat.max_eq_right (Nat.le_of_lt (Nat.lt_of_not_le h))).symm

theorem ceilCatOf_sev_antitone (x y : ℤ) (h : x ≤ y) :
    (ceilCatOf (some y)).sev ≤ (ceilCatOf (some x)).sev := by
  simp only [ceilCatOf]
  split_ifs <;> simp_all [Cat.sev] <;> omega

theorem visCatOf_sev_antitone (x y : ℚ) (h : x ≤ y) :
    (visCatOf (some y)).sev ≤ (visCatOf (some x)).sev := by
  simp only [visCatOf]
  split_ifs <;> simp_all [Cat.sev] <;> linarith

theorem ceilCatOf_none_sev_le (c : Option ℤ) : (ceilCatOf none).sev ≤ (ceilCatOf c).sev :=
  Nat.zero_le _

theorem visCatOf_none_sev_le (v : Option ℚ) : (visCatOf none).sev ≤ (visCatOf v).sev :=
  Nat.zero_le _

/-- C5: the four-tier classifier is monotone in reported severity — a
lower (or newly present) ceiling and a lower (or newly present) parsed
visibility never produce a strictly less severe category. The first input
is at least as restrictive as the second on each axis. -/
theorem classifier_monotone (c₁ c₂ : Option ℤ) (v₁ v₂ : Option Visib)
    (hc : c₂ = none ∨ ∃ x₁ x₂, c₁ = some x₁ ∧ c₂ = some x₂ ∧ x₁ ≤ x₂)
    (hv : parseVis v₂ = none ∨
      ∃ q₁ q₂, parseVis v₁ = some q₁ ∧ parseVis v₂ = some q₂ ∧ q₁ ≤ q₂) :
    (computeFlightCategory c₂ v₂).sev ≤ (computeFlightCategory c₁ v₁).sev := by
  rw [sev_computeFlightCategory, sev_computeFlightCategory]
  have h1 : (ceilCatOf c₂).sev ≤ (ceilCatOf c₁).sev := by
    rcases hc with h | ⟨x₁, x₂, h₁, h₂, hle⟩
    · rw [h]
      exact ceilCatOf_none_sev_le c₁
    · rw [h₁, h₂]
      exact ceilCatOf_sev_antitone x₁ x₂ hle
  have h2 : (visCatOf (parseVis v₂)).sev ≤ (visCatOf (parseVis v₁)).sev := by
    rcases hv with h | ⟨q₁, q₂, h₁, h₂, hle⟩
    · rw [h]
      exact visCatOf_none_sev_le (parseVis v₁)
    · rw [h₁, h₂]
      exact visCatOf_sev_antitone q₁ q₂ hle
  exact max_le_max h1 h2

/-- C5 witness: lowering the ceiling from 5000 ft to 400 ft (visibility
absent in both) does not lower the severity of the classifier's output. -/
theorem classifier_monotone_witness :
    (computeFlightCategory (some 5000) none).sev ≤
      (computeFlightCategory (some 400) none).sev :=
  classifier_monotone (some 400) (some 5000) none none
    (Or.inr ⟨400, 5000, rfl, rfl, by norm_num⟩) (Or.inl rfl)

/-- C8: the two-tier classifier returns IFR exactly when the ceiling is
present and at most 1500 ft, or the parsed visibility (statute miles,
plus-notation adding 0.1) is present and is at most 5 km when converted
at 1 SM = 1.60934 km; in every other case — in particular with both
inputs absent — it returns VFR. -/
theorem twotier_classifier_spec (c : Option ℤ) (v : Option Visib) :
    (ClientTwo.computeFlightCategory c v = ClientTwo.Cat2.IFR ↔
      ((∃ x, c = some x ∧ x ≤ 1500) ∨
        (∃ q, parseVis v = some q ∧ q * 1.60934 ≤ 5))) ∧
    (ClientTwo.computeFlightCategory c v ≠ ClientTwo.Cat2.IFR →
      ClientTwo.computeFlightCategory c v = ClientTwo.Cat2.VFR) ∧
    ClientTwo.computeFlightCategory none none = ClientTwo.Cat2.VFR := by
  have hconv : ∀ q : ℚ, q ≤ ClientTwo.VFR_VIS_SM ↔ q * 1.60934 ≤ 5 := by
    intro q
    unfold ClientTwo.VFR_VIS_SM
    rw [le_div_iff₀ (by norm_num)]
  refine ⟨?_, ?_, rfl⟩
  · unfold ClientTwo.computeFlightCategory ClientTwo.jsLeNum ClientTwo.jsLeRat
      ClientTwo.VFR_CEIL
    rcases c with _ | x <;> rcases hp : parseVis v with _ | q <;>
      simp [hp, hconv]
    constructor
    · intro h
      rcases le_or_lt x 1500 with hx | hx
      · exact Or.inl hx
      · exact Or.inr (h hx)
    · intro h hx
      rcases h with h | h
      · omega
      · exact h
  · intro h
    rcases hcv : ClientTwo.computeFlightCategory c v with _ | _
    · rfl
    · exact absurd hcv h

/-- C8 witness: a 1000 ft ceiling with absent visibility classifies IFR
in the two-tier scheme. -/
theorem twotier_classifier_spec_witness :
    ClientTwo.computeFlightCategory (some 1000) none = ClientTwo.Cat2.IFR :=
  (twotier_classifier_spec (some 1000) none).1.mpr
    (Or.inl ⟨1000, rfl, by norm_num⟩)

theorem tempoWeatherStep_wdir (t : ℤ) (r : Weather) (cg : Period) :
    (tempoWeatherStep t r cg).wdir = r.wdir := by
  unfold tempoWeatherStep
  split_ifs <;> rfl

theorem tempoWeatherFold_wdir (t : ℤ) :
    ∀ (l : List Period) (r : Weather), (l.foldl (tempoWeatherStep t) r).wdir = r.wdir := by
  intro l
  induction l with
  | nil => intro r; rfl
  | cons cg rest ih =>
    intro r
    rw [List.foldl_cons, ih, tempoWeatherStep_wdir]

/-- The BECMG pass only reacts to BECMG groups, so folding it over a list
equals folding it over the sublist of BECMG groups. -/
theorem becmgWeatherFold_filter (t : ℤ) :
    ∀ (l : List Period) (r : Weather),
      l.foldl (becmgWeatherStep t) r =
        (l.filter (fun f => decide (f.fcstChange = some FcstChange.BECMG))).foldl
          (becmgWeatherStep t) r := by
  intro l
  induction l with
  | nil => intro r; rfl
  | cons cg rest ih =>
    intro r
    by_cases h : cg.fcstChange = some FcstChange.BECMG
    · rw [List.foldl_cons, List.filter_cons_of_pos (by simp [h]), List.foldl_cons, ih]
    · have hskip : becmgWeatherStep t r cg = r := by
        unfold becmgWeatherStep
        rw [if_pos h]
      rw [List.foldl_cons, hskip, List.filter_cons_of_neg (by simp [h]), ih]

theorem wdir_filter_base (l : List Period) :
    (l.filter (fun f =>
        f.fcstChange.isNone || decide (f.fcstChange = some FcstChange.BECMG))).filter
      (fun f => f.fcstChange.isNone) = l.filter (fun f => f.fcstChange.isNone) := by
  rw [List.filter_filter]
  apply List.filter_congr
  intro f _
  rcases hf : f.fcstChange with _ | k <;> simp [hf]

theorem wdir_filter_change (l : List Period) :
    (l.filter (fun f =>
        f.fcstChange.isNone || decide (f.fcstChange = some FcstChange.BECMG))).filter
      (fun f => !f.fcstChange.isNone) =
      l.filter (fun f => decide (f.fcstChange = some FcstChange.BECMG)) := by
  rw [List.filter_filter]
  apply List.filter_congr
  intro f _
  rcases hf : f.fcstChange with _ | k
  · simp [hf]
  · rcases k <;> simp [hf]

theorem wdir_filter_becmg (l : List Period) :
    (l.filter (fun f => !f.fcstChange.isNone)).filter
      (fun f => decide (f.fcstChange = some FcstChange.BECMG)) =
      l.filter (fun f => decide (f.fcstChange = some FcstChange.BECMG)) := by
  rw [List.filter_filter]
  apply List.filter_congr
  intro f _
  rcases hf : f.fcstChange with _ | k
  · simp [hf]
  · rcases k <;> simp [hf]

theorem wdir_filter_keepBecmg (l : List Period) :
    (l.filter (fun f =>
        f.fcstChange.isNone || decide (f.fcstChange = some FcstChange.BECMG))).filter
      (fun f => decide (f.fcstChange = some FcstChange.BECMG)) =
      l.filter (fun f => decide (f.fcstChange = some FcstChange.BECMG)) := by
  rw [List.filter_filter]
  apply List.filter_congr
  intro f _
  rcases hf : f.fcstChange with _ | k
  · simp [hf]
  · rcases k <;> simp [hf]

/-- On a document passing both guards, the `wdir` of the weather result is
the `wdir` after folding the BECMG pass over exactly the BECMG groups. -/
theorem wdir_eval (taf : Taf) (t : ℤ) (he : taf.fcsts.isEmpty = false)
    (hg : (jsLt t taf.validTimeFrom || jsGe t taf.validTimeTo) = false) :
    (getForecastWeatherFromTaf taf t).bind Weather.wdir =
      ((taf.fcsts.filter (fun f => decide (f.fcstChange = some FcstChange.BECMG))).foldl
        (becmgWeatherStep t)
        (baseWeather t (taf.fcsts.filter (fun f => f.fcstChange.isNone)))).wdir := by
  unfold getForecastWeatherFromTaf
  simp only [he, hg, Bool.false_eq_true, if_false, Option.some_bind]
  rw [tempoWeatherFold_wdir, becmgWeatherFold_filter, wdir_filter_becmg]

/-- C9: the `wdir` of the weather result is produced by the covering base
period and the BECMG overwrite pass alone — deleting every TEMPO/PROB
group from the document does not change it, and on any defined result it
equals the `wdir` after the base and BECMG passes. -/
theorem wdir_frame (taf : Taf) (t : ℤ) :
    ((getForecastWeatherFromTaf taf t).bind Weather.wdir =
      (getForecastWeatherFromTaf
        ⟨taf.validTimeFrom, taf.validTimeTo,
          taf.fcsts.filter (fun f =>
            f.fcstChange.isNone || decide (f.fcstChange = some FcstChange.BECMG))⟩ t).bind
        Weather.wdir) ∧
    (∀ r : Weather, getForecastWeatherFromTaf taf t = some r →
      r.wdir = ((taf.fcsts.filter (fun f => !f.fcstChange.isNone)).foldl
        (becmgWeatherStep t)
        (baseWeather t (taf.fcsts.filter (fun f => f.fcstChange.isNone)))).wdir) := by
  constructor
  · by_cases he : taf.fcsts.isEmpty
    · have hl : taf.fcsts = [] := List.isEmpty_iff.mp he
      simp [getForecastWeatherFromTaf, hl]
    · have heF : taf.fcsts.isEmpty = false := Bool.eq_false_iff.mpr he
      by_cases hg : (jsLt t taf.validTimeFrom || jsGe t taf.validTimeTo) = true
      · simp [getForecastWeatherFromTaf, hg]
      · have hgF : (jsLt t taf.validTimeFrom || jsGe t taf.validTimeTo) = false :=
          Bool.eq_false_iff.mpr hg
        rw [wdir_eval taf t heF hgF]
        by_cases he' : (taf.fcsts.filter (fun f =>
            f.fcstChange.isNone || decide (f.fcstChange = some FcstChange.BECMG))).isEmpty
        · have hl' : taf.fcsts.filter (fun f =>
              f.fcstChange.isNone || decide (f.fcstChange = some FcstChange.BECMG)) = [] :=
            List.isEmpty_iff.mp he'
          have hbase : taf.fcsts.filter (fun f => f.fcstChange.isNone) = [] := by
            rw [← wdir_filter_base taf.fcsts, hl']
            rfl
          have hbec : taf.fcsts.filter
              (fun f => decide (f.fcstChange = some FcstChange.BECMG)) = [] := by
            rw [← wdir_filter_keepBecmg taf.fcsts, hl']
            rfl
          rw [hbase, hbec]
          simp [getForecastWeatherFromTaf, hl', baseWeather, initWeather]
        · have h2 := wdir_eval
            ⟨taf.validTimeFrom, taf.validTimeTo,
              taf.fcsts.filter (fun f =>
                f.fcstChange.isNone || decide (f.fcstChange = some FcstChange.BECMG))⟩ t
            (Bool.eq_false_iff.mpr he') hgF
          rw [h2]
          rw [show (⟨taf.validTimeFrom, taf.validTimeTo,
              taf.fcsts.filter (fun f =>
                f.fcstChange.isNone || decide (f.fcstChange = some FcstChange.BECMG))⟩ :
                Taf).fcsts =
            taf.fcsts.filter (fun f =>
              f.fcstChange.isNone || decide (f.fcstChange = some FcstChange.BECMG)) from rfl]
          rw [wdir_filter_base, wdir_filter_keepBecmg]
  · intro r hr
    unfold getForecastWeatherFromTaf at hr
    by_cases he : taf.fcsts.isEmpty
    · rw [if_pos he] at hr
      exact absurd hr (by simp)
    rw [if_neg he] at hr
    by_cases hg : (jsLt t taf.validTimeFrom || jsGe t taf.validTimeTo) = true
    · rw [if_pos hg] at hr
      exact absurd hr (by simp)
    rw [if_neg hg] at hr
    have hr' := Option.some.inj hr
    rw [← hr', tempoWeatherFold_wdir]

/-- C9 witness: with one base period (wdir 270) and one BECMG group
(wdir 180) the defined result's `wdir` equals the base-plus-BECMG fold. -/
theorem wdir_frame_witness :
    ({ wspd := some 20, wgst := none, wdir := some 180, ceiling := some 800 } :
        Weather).wdir =
      (((⟨some 0, some 3600, [wBase, wBecmg]⟩ : Taf).fcsts.filter
          (fun f => !f.fcstChange.isNone)).foldl (becmgWeatherStep 1000)
        (baseWeather 1000 ((⟨some 0, some 3600, [wBase, wBecmg]⟩ : Taf).fcsts.filter
          (fun f => f.fcstChange.isNone)))).wdir :=
  (wdir_frame ⟨some 0, some 3600, [wBase, wBecmg]⟩ 1000).2
    { wspd := some 20, wgst := none, wdir := some 180, ceiling := some 800 } (by decide)

/-! ### The end-to-end scenario (C1) -/

/-- Scenario base period 00:00–12:00: ceiling 5000 ft, visibility `"6+"`. -/
def scnBase1 : Period :=
  { timeFrom := some 0, timeTo := some 43200, timeBec := none, fcstChange := none,
    clouds := some [⟨Cover.BKN, some 5000⟩], visib := some (Visib.vstr 6 true),
    wdir := none, wspd := none, wgst := none }

/-- Scenario BECMG group 10:00→11:00: ceiling 800 ft. -/
def scnBecmg : Period :=
  { timeFrom := some 36000, timeTo := some 39600, timeBec := some 39600,
    fcstChange := some FcstChange.BECMG,
    clouds := some [⟨Cover.BKN, some 800⟩], visib := none,
    wdir := none, wspd := none, wgst := none }

/-- Scenario TEMPO group 14:00–16:00: visibility `"1"`. -/
def scnTempo : Period :=
  { timeFrom := some 50400, timeTo := some 57600, timeBec := none,
    fcstChange := some FcstChange.TEMPO,
    clouds := none, visib := some (Visib.vstr 1 false),
    wdir := none, wspd := none, wgst := none }

/-- Scenario second base period 12:00–24:00: ceiling 4000 ft. -/
def scnBase2 : Period :=
  { timeFrom := some 43200, timeTo := some 86400, timeBec := none, fcstChange := none,
    clouds := some [⟨Cover.BKN, some 4000⟩], visib := none,
    wdir := none, wspd := none, wgst := none }

/-- The TAF of the spec's end-to-end scenario, valid 00:00Z–24:00Z. -/
def scnTaf : Taf :=
  { validTimeFrom := some 0, validTimeTo := some 86400,
    fcsts := [scnBase1, scnBase2, scnBecmg, scnTempo] }

/-- C1 counterexample: at 15:00 (54000 s) the engine returns IFR, not the
LIFR the scenario claims — the TEMPO visibility 1 falls in the IFR band
(1 ≤ vis < 3); the LIFR band requires visibility strictly below 1. -/
theorem scenario_15z_is_IFR_not_LIFR :
    getForecastCategoryFromTaf scnTaf 54000 = some Cat.IFR ∧
    getForecastCategoryFromTaf scnTaf 54000 ≠ some Cat.LIFR := by
  have h : getForecastCategoryFromTaf scnTaf 54000 = some Cat.IFR := by
    norm_num [getForecastCategoryFromTaf, tafCategoryCore, scnTaf, scnBase1, scnBase2,
      scnBecmg, scnTempo, jsLt, jsGe, jsLeFrom, jsLtTo, periodCovers, becmgStep, tempoStep,
      worseCat, getTafPeriodCategory, getCeilingFromClouds, ceilingScan, visMissing,
      computeFlightCategory, parseVis, ceilCatOf, visCatOf, Cat.sev]
  exact ⟨h, by rw [h]; simp⟩

/-- C1 amended: on the scenario document the engine returns VFR at 06:00,
IFR at 11:30 (the BECMG persists), IFR at 15:00 (the TEMPO visibility 1
classifies IFR, dominating nothing worse), and IFR at 20:00 (the BECMG is
permanent once begun). -/
theorem scenario_categories :
    getForecastCategoryFromTaf scnTaf 21600 = some Cat.VFR ∧
    getForecastCategoryFromTaf scnTaf 41400 = some Cat.IFR ∧
    getForecastCategoryFromTaf scnTaf 54000 = some Cat.IFR ∧
    getForecastCategoryFromTaf scnTaf 72000 = some Cat.IFR := by
  refine ⟨?_, ?_, ?_, ?_⟩ <;>
    norm_num [getForecastCategoryFromTaf, tafCategoryCore, scnTaf, scnBase1, scnBase2,
      scnBecmg, scnTempo, jsLt, jsGe, jsLeFrom, jsLtTo, periodCovers, becmgStep, tempoStep,
      worseCat, getTafPeriodCategory, getCeilingFromClouds, ceilingScan, visMissing,
      computeFlightCategory, parseVis, ceilCatOf, visCatOf, Cat.sev]
